/-
  Shallow embedding of the NETLOGON secure-channel client
  (usr/src/lib/smbsrv/libmlsvc/common/netr_auth.c) and proofs about it.

  Bytes are modelled as `Nat` (values < 256 where it matters), buffers as
  `List Nat`.  The external crypto primitives (DES-like block cipher, MD5,
  HMAC-MD5, NTLM-style password hash) and the RPC transport are out of
  scope for the source file and are modelled as oracle parameters: fallible
  primitives return `Option (List Nat)`.
-/
import Mathlib

namespace NetrAuth

/-- `SMBAUTH_SUCCESS` return code (value from libsmb headers outside the
embedded source; only its distinctness from the other codes matters). -/
def SMBAUTH_SUCCESS : Int := 0

/-- `SMBAUTH_FAILURE` return code (libsmb headers). -/
def SMBAUTH_FAILURE : Int := -1

/-- `SMBAUTH_RETRY` return code (libsmb headers). -/
def SMBAUTH_RETRY : Int := 1

/-- `NT_STATUS_SUCCESS`. -/
def NT_STATUS_SUCCESS : Nat := 0

/-- `NT_STATUS_UNSUCCESSFUL` (0xC0000001). -/
def NT_STATUS_UNSUCCESSFUL : Nat := 3221225473

/-- `NETR_DESKEY_LEN` — the DES-like cipher uses a 7-byte key. -/
def NETR_DESKEY_LEN : Nat := 7

/-- `NETR_SESSKEY_ZEROBUF_SZ` — 4-byte zero buffer hashed into the
128-bit session key. -/
def NETR_SESSKEY_ZEROBUF_SZ : Nat := 4

/-- Modelled from the spec: `NETR_NEGO_STRONGKEY_FLAG`, the strong-key
capability bit of NetrServerAuthenticate negotiate flags.  The numeric
value lives in `smbsrv/ndl/netlogon.ndl`, which is not part of the
embedded source; per MS-NRPC it is bit 14 (0x4000).  Only the facts that
it is a single bit distinct from the secure-RPC bit are used. -/
def NETR_NEGO_STRONGKEY_FLAG : Nat := 16384

/-- Modelled from the spec: `NETR_NEGO_SECURE_RPC_FLAG`, the secure-RPC
capability bit (bit 30, 0x40000000) of the negotiate flags; the numeric
value lives in `smbsrv/ndl/netlogon.ndl`, outside the embedded source. -/
def NETR_NEGO_SECURE_RPC_FLAG : Nat := 1073741824

/-- Modelled from the spec: `NETR_FLG_VALID`, the "session established"
bit of `netr_info_t.flags` (from `smbsrv/netrauth.h`, outside the
embedded source); only its being a fixed single bit matters. -/
def NETR_FLG_VALID : Nat := 1

/-- `NETR_CFG_DISABLE_SECURE_RPC` configuration bit (netr_auth.c line 91). -/
def NETR_CFG_DISABLE_SECURE_RPC : Nat := 1

/-- `netlogon_init_global`: the only effect of the configuration on the
negotiate-flag proposal — `use_secure_rpc` is true iff the
disable-secure-rpc configuration bit is clear. -/
def netlogon_init_use_secure_rpc (cfg_flags : Nat) : Bool :=
  cfg_flags &&& NETR_CFG_DISABLE_SECURE_RPC = 0

/-- Read a 32-bit little-endian word from the first four bytes of a
buffer (`LE_IN32`); missing bytes read as zero. -/
def LE_IN32 (b : List Nat) : Nat :=
  b.getD 0 0 + 256 * b.getD 1 0 + 65536 * b.getD 2 0 + 16777216 * b.getD 3 0

/-- Write a 32-bit word as four little-endian bytes (`LE_OUT32`). -/
def LE_OUT32 (w : Nat) : List Nat :=
  [w % 256, w / 256 % 256, w / 65536 % 256, w / 16777216 % 256]

/-- `passes_dc_mitigation` (netr_auth.c lines 119–137): the buffer passes
iff among the first five bytes at least one appears exactly once — i.e.
some index `i < 5` matches no other index `j < 5`.  Mirrors the C double
loop: the inner loop breaks on a collision; if `j` reaches 5 the byte is
unique and the function returns true. -/
def passes_dc_mitigation (buf : List Nat) : Bool :=
  (List.range 5).any (fun i =>
    (List.range 5).all (fun j => i == j || buf.getD i 0 != buf.getD j 0))

example : passes_dc_mitigation [0, 0, 0, 0, 0, 1, 2] = false := by decide
example : passes_dc_mitigation [1, 1, 2, 2, 2] = false := by decide
example : passes_dc_mitigation [1, 1, 2, 2, 3] = true := by decide
example : passes_dc_mitigation [0, 1, 2, 3, 4, 0, 0, 0] = true := by decide

/-- The external crypto/configuration collaborators used by the
derivation functions, as oracles.  `des k x` models
`smb_auth_DES(out, 8, k, 7, x, 8)` (`none` = `SMBAUTH_FAILURE`); `ntlm`
models `smb_auth_ntlm_hash`; `md5` collapses the PKCS#11
DigestInit/Update/Final sequence; `md5_session_ok` models
`SUNW_C_GetMechSession` succeeding (its failure sets `rc =
SMBAUTH_FAILURE`, unlike later digest-step failures — see
`netr_gen_skey128`); `hmac_md5 data key` models
`smb_auth_hmac_md5(data, 16, key, 16, out)`; `config_password` models
`smb_config_getstr(SMB_CI_MACHINE_PASSWD, ...)` (`none` = SMF failure). -/
structure CryptoEnv where
  config_password : Option (List Nat)
  ntlm : List Nat → Option (List Nat)
  md5_session_ok : Bool
  md5 : List Nat → Option (List Nat)
  hmac_md5 : List Nat → List Nat → Option (List Nat)
  des : List Nat → List Nat → Option (List Nat)

/-- The mutable session state `netr_info_t` (identity strings omitted:
no claim depends on them; failures of the name lookups are modelled as
environment booleans in `NetlogonEnv`).  `session_key` models the
fixed 16-byte `session_key.key` buffer, `session_key_len` its `.len`
field.  `password = []` represents the zeroed password buffer. -/
structure NetrInfo where
  client_challenge : List Nat
  server_challenge : List Nat
  session_key : List Nat
  session_key_len : Nat
  client_credential : List Nat
  server_credential : List Nat
  nego_flags : Nat
  password : List Nat
  flags : Nat
  use_secure_rpc : Bool
  timestamp : Nat
deriving DecidableEq

/-- The 8-byte cipher input of `netr_gen_credentials` (lines 640–645):
read the challenge as two little-endian 32-bit words, add the timestamp
to the first word only (uint32 wraparound), re-encode little-endian. -/
def netr_cred_input (challenge : List Nat) (timestamp : Nat) : List Nat :=
  LE_OUT32 ((LE_IN32 challenge + timestamp) % 4294967296) ++
    LE_OUT32 (LE_IN32 (challenge.drop 4))

/-- `netr_gen_credentials` (lines 630–667).  Two DES passes: the first
keyed by bytes 0–6 of the session key, the second by bytes 7–13.  With
`retry` set, an output failing `passes_dc_mitigation` yields
`SMBAUTH_RETRY` (the credential has still been written to the output
buffer).  On a cipher failure the C leaves the output buffer
unspecified; modelled as `none`. -/
def netr_gen_credentials (des : List Nat → List Nat → Option (List Nat))
    (session_key challenge : List Nat) (timestamp : Nat) (retry : Bool) :
    Int × Option (List Nat) :=
  match des (session_key.take NETR_DESKEY_LEN) (netr_cred_input challenge timestamp) with
  | none => (SMBAUTH_FAILURE, none)
  | some buffer =>
    match des ((session_key.drop NETR_DESKEY_LEN).take NETR_DESKEY_LEN) buffer with
    | none => (SMBAUTH_FAILURE, none)
    | some cred =>
      if retry && !passes_dc_mitigation cred then (SMBAUTH_RETRY, some cred)
      else (SMBAUTH_SUCCESS, some cred)

/-- `netr_gen_skey128` (lines 433–514).  Reads the machine password from
configuration (failure or an empty string fails), hashes it NTLM-style,
digests `zerobuf(4) ++ client_challenge(8) ++ server_challenge(8)` with
MD5 and HMACs the digest keyed by the NTLM hash, storing the 16-byte
result as the session key.  The password buffer is zeroed
(`explicit_bzero`) on every exit path, modelled as `password := []`.
Note the C quirk at lines 478–499: if a PKCS#11 digest step fails the
function jumps to cleanup with `rc` still holding `SMBAUTH_SUCCESS`
from `smb_auth_ntlm_hash`, leaving the session key unset. -/
def netr_gen_skey128 (E : CryptoEnv) (info : NetrInfo) : Int × NetrInfo :=
  match E.config_password with
  | none => (SMBAUTH_FAILURE, { info with password := [] })
  | some pw =>
    if pw.getD 0 0 = 0 then (SMBAUTH_FAILURE, { info with password := [] })
    else
      match E.ntlm pw with
      | none => (SMBAUTH_FAILURE, { info with password := [] })
      | some ntlmhash =>
        if !E.md5_session_ok then (SMBAUTH_FAILURE, { info with password := [] })
        else
          match E.md5 (List.replicate NETR_SESSKEY_ZEROBUF_SZ 0 ++
              info.client_challenge.take 8 ++ info.server_challenge.take 8) with
          | none => (SMBAUTH_SUCCESS, { info with password := [] })
          | some md5digest =>
            match E.hmac_md5 md5digest ntlmhash with
            | none =>
              (SMBAUTH_FAILURE, { info with password := [], session_key_len := 16 })
            | some key =>
              (SMBAUTH_SUCCESS,
                { info with password := [], session_key := key, session_key_len := 16 })

/-- `netr_gen_skey64` (lines 546–601).  NTLM-hash the machine password;
form the word-wise little-endian wraparound sum of the two challenges;
DES-encrypt it keyed by bytes 0–6 of the hash, then DES-encrypt that
keyed by bytes 9–15 of the hash (`&md4hash[9]`, the protocol's
asymmetric slicing).  The 8-byte result is written into the first half
of the 16-byte session-key buffer; `.len` is set to 8 before the second
cipher call, so it is 8 even when that call fails. -/
def netr_gen_skey64 (E : CryptoEnv) (info : NetrInfo) : Int × NetrInfo :=
  match E.config_password with
  | none => (SMBAUTH_FAILURE, { info with password := [] })
  | some pw =>
    if pw.getD 0 0 = 0 then (SMBAUTH_FAILURE, { info with password := [] })
    else
      match E.ntlm pw with
      | none => (SMBAUTH_FAILURE, { info with password := [] })
      | some md4hash =>
        let le_data :=
          LE_OUT32 ((LE_IN32 info.client_challenge + LE_IN32 info.server_challenge) %
              4294967296) ++
          LE_OUT32 ((LE_IN32 (info.client_challenge.drop 4) +
              LE_IN32 (info.server_challenge.drop 4)) % 4294967296)
        match E.des (md4hash.take NETR_DESKEY_LEN) le_data with
        | none => (SMBAUTH_FAILURE, { info with password := [] })
        | some buffer =>
          match E.des ((md4hash.drop 9).take NETR_DESKEY_LEN) buffer with
          | none => (SMBAUTH_FAILURE, { info with password := [], session_key_len := 8 })
          | some key =>
            (SMBAUTH_SUCCESS,
              { info with password := [],
                          session_key := key ++ info.session_key.drop 8,
                          session_key_len := 8 })

/-- `netr_gen_password` (lines 763–776): two independent DES passes over
the 8-byte halves of the old password, keyed by session-key bytes 0–6
and 7–13 respectively. -/
def netr_gen_password (des : List Nat → List Nat → Option (List Nat))
    (session_key old_password : List Nat) : Int × Option (List Nat) :=
  match des (session_key.take NETR_DESKEY_LEN) (old_password.take 8) with
  | none => (SMBAUTH_FAILURE, none)
  | some lo =>
    match des ((session_key.drop NETR_DESKEY_LEN).take NETR_DESKEY_LEN)
        ((old_password.drop 8).take 8) with
    | none => (SMBAUTH_FAILURE, none)
    | some hi => (SMBAUTH_SUCCESS, some (lo ++ hi))

/-- Clear the bits of `mask` in a 32-bit flag word:
`flags &= ~mask` at C `uint32_t` width. -/
def maskOut32 (flags mask : Nat) : Nat :=
  flags &&& (4294967295 ^^^ mask)

/-- `netr_server_auth2_flags` (lines 338–341):
`NETR_NEGO_BASE_FLAGS | NETR_NEGO_STRONGKEY_FLAG |
NETR_NEGO_SECURE_RPC_FLAG`.  The numeric value of
`NETR_NEGO_BASE_FLAGS` lives in `smbsrv/ndl/netlogon.ndl`, outside the
embedded source, so it is kept as a parameter `base`; all theorems hold
for every `base`. -/
def netr_server_auth2_flags (base : Nat) : Nat :=
  base ||| NETR_NEGO_STRONGKEY_FLAG ||| NETR_NEGO_SECURE_RPC_FLAG

/-- The negotiate flags proposed by `netr_server_authenticate2`
(lines 368–376): `netr_server_auth2_flags`, with the secure-RPC bit
masked out when `use_secure_rpc` is disabled by configuration. -/
def auth2_negotiate_flags (base : Nat) (use_secure_rpc : Bool) : Nat :=
  if use_secure_rpc then netr_server_auth2_flags base
  else maskOut32 (netr_server_auth2_flags base) NETR_NEGO_SECURE_RPC_FLAG

/-- The session-key derivation step of `netr_server_authenticate2`
(lines 378–384): strong 128-bit derivation iff the proposed flags
contain the strong-key bit, else the legacy 64-bit derivation. -/
def auth2_gen_skey (E : CryptoEnv) (negotiate_flags : Nat) (info : NetrInfo) :
    Int × NetrInfo :=
  if negotiate_flags &&& NETR_NEGO_STRONGKEY_FLAG ≠ 0 then netr_gen_skey128 E info
  else netr_gen_skey64 E info

/-- The external outcome of the NetrServerAuthenticate2 RPC exchange:
whether `ndr_rpc_call` succeeded, the returned protocol status, and the
returned negotiate flags and server credential. -/
structure Auth2Reply where
  call_ok : Bool
  status : Nat
  negotiate_flags : Nat
  server_credential : List Nat
deriving DecidableEq

/-- `netr_server_authenticate2` (lines 346–425).  Derives the session
key, computes the client and server credentials (timestamp 0, no
retry), sends the client credential, and on a successful call with zero
status stores the server-returned negotiate flags verbatim
(`netr_info->nego_flags = arg.negotiate_flags`, line 418) and returns
the `memcmp` of the locally computed server credential against the
returned one — modelled as `0` on 8-byte equality and `1` otherwise
(callers only test against zero). -/
def netr_server_authenticate2 (E : CryptoEnv) (base : Nat) (reply : Auth2Reply)
    (info : NetrInfo) : Int × NetrInfo :=
  let negotiate_flags := auth2_negotiate_flags base info.use_secure_rpc
  match auth2_gen_skey E negotiate_flags info with
  | (rc, info) =>
    if rc ≠ SMBAUTH_SUCCESS then (-1, info)
    else
      match netr_gen_credentials E.des info.session_key info.client_challenge 0 false with
      | (rc1, ccred) =>
        if rc1 ≠ SMBAUTH_SUCCESS then (-1, info)
        else
          let info := { info with client_credential := ccred.getD [] }
          match netr_gen_credentials E.des info.session_key info.server_challenge 0 false with
          | (rc2, scred) =>
            if rc2 ≠ SMBAUTH_SUCCESS then (-1, info)
            else
              let info := { info with server_credential := scred.getD [] }
              if !reply.call_ok then (-1, info)
              else if reply.status ≠ 0 then (-1, info)
              else
                let info := { info with nego_flags := reply.negotiate_flags }
                (if info.server_credential.take 8 = reply.server_credential.take 8
                  then 0 else 1, info)

/-- The external collaborators of `netlogon_auth`: `netr_open` status,
the three identity lookups, the `arc4random` stream (one 8-byte
candidate per loop iteration), the ServerReqChallenge exchange, and the
crypto and authenticate-2 environments. -/
structure NetlogonEnv where
  open_status : Nat
  getnetbiosname_ok : Bool
  getdomainname_ok : Bool
  getfqdomainname_ok : Bool
  random : Nat → List Nat
  reqchal_call_ok : Bool
  reqchal_status : Nat
  server_challenge : List Nat
  crypto : CryptoEnv
  auth2_reply : Auth2Reply

/-- The challenge-generation retry loop of `netlogon_auth`
(lines 208–217): draw candidates from the random stream until one
passes the DC mitigation.  The C loop is unbounded; `fuel` bounds the
model and `none` represents a run still looping. -/
def find_challenge (stream : Nat → List Nat) : Nat → Option (List Nat)
  | 0 => none
  | Nat.succ n =>
    if passes_dc_mitigation (stream 0) then some (stream 0)
    else find_challenge (fun k => stream (k + 1)) n

/-- Result of one `netlogon_auth` attempt: the returned NT status, the
final session state, and whether `smb_update_netlogon_seqnum()` ran
(the monotonic sequence marker of the spec). -/
structure NetrOutcome where
  status : Nat
  info : NetrInfo
  seqnum_updated : Bool
deriving DecidableEq

/-- `netlogon_auth` (lines 153–238).  Opens the RPC session, zeroes the
session key and stores the caller's flags, resolves identity names,
generates a mitigated client challenge, runs the challenge and
authenticate exchanges, and on authenticate success records the
sequence marker and sets `NETR_FLG_VALID`; every non-open failure maps
to `NT_STATUS_UNSUCCESSFUL`. -/
def netlogon_auth (E : NetlogonEnv) (base fuel arg_flags : Nat) (info0 : NetrInfo) :
    Option NetrOutcome :=
  if E.open_status ≠ 0 then some ⟨E.open_status, info0, false⟩
  else
    let info := { info0 with session_key := List.replicate 16 0,
                             session_key_len := 0, flags := arg_flags }
    if !E.getnetbiosname_ok then some ⟨NT_STATUS_UNSUCCESSFUL, info, false⟩
    else if !E.getdomainname_ok then some ⟨NT_STATUS_UNSUCCESSFUL, info, false⟩
    else if !E.getfqdomainname_ok then some ⟨NT_STATUS_UNSUCCESSFUL, info, false⟩
    else
      match find_challenge E.random fuel with
      | none => none
      | some cc =>
        let info := { info with client_challenge := cc }
        if !E.reqchal_call_ok then some ⟨NT_STATUS_UNSUCCESSFUL, info, false⟩
        else if E.reqchal_status ≠ 0 then some ⟨NT_STATUS_UNSUCCESSFUL, info, false⟩
        else
          let info := { info with server_challenge := E.server_challenge }
          match netr_server_authenticate2 E.crypto base E.auth2_reply info with
          | (rc, info1) =>
            if rc = 0 then
              some ⟨NT_STATUS_SUCCESS,
                { info1 with flags := info1.flags ||| NETR_FLG_VALID }, true⟩
            else some ⟨NT_STATUS_UNSUCCESSFUL, info1, false⟩

/-- Which RPC bind `netr_open_secure` performs. -/
inductive BindKind where
  | secure
  | plain
deriving DecidableEq

/-- The bind selection of `netr_open_secure` (lines 266–290): the
authenticated (`ndr_rpc_bind_secure`) path iff the negotiated flags
contain the secure-RPC bit, else the unauthenticated `ndr_rpc_bind`. -/
def netr_open_secure_bind (nego_flags : Nat) : BindKind :=
  if nego_flags &&& NETR_NEGO_SECURE_RPC_FLAG ≠ 0 then BindKind.secure
  else BindKind.plain

/-- Modelled from the spec: `netr_setup_authenticator` and
`netr_validate_chain` are declared in the source (lines 55–57) but
defined elsewhere in the repository.  Per the spec (§4.3/§4.4) the
former builds the client authenticator by advancing the stored
timestamp and rolling credential, and the latter checks the returned
server authenticator against the expected next value, committing the
new rolling seed on a match; both operate on the challenge, credential
and timestamp fields of the session state.  They are modelled as
oracles on the session state: `setup i = none` is an
authenticator-setup failure (`!= SMBAUTH_SUCCESS`); `validate i =
(status, i')` returns the `DWORD` chain-validation status (`0` =
match) and the advanced state. -/
structure ChainOracle where
  setup : NetrInfo → Option NetrInfo
  validate : NetrInfo → Nat × NetrInfo

/-- `netr_server_password_set` (lines 682–749).  Builds the client
authenticator, derives the new password from the old one and the
session key, sends the request, and — only when the returned server
authenticator passes chain validation — commits the new password into
the session state.  Hard failures (setup, derivation, transport,
non-zero status) return `-1`; after a successful call the function
returns `0` whether or not chain validation succeeded, so a
validation mismatch is not fatal and leaves the old password in
place. -/
def netr_server_password_set (O : ChainOracle)
    (des : List Nat → List Nat → Option (List Nat))
    (call_ok : Bool) (status : Nat) (info : NetrInfo) : Int × NetrInfo :=
  match O.setup info with
  | none => (-1, info)
  | some info =>
    match netr_gen_password des info.session_key info.password with
    | (rc, new_password) =>
      if rc = SMBAUTH_FAILURE then (-1, info)
      else if !call_ok then (-1, info)
      else if status ≠ 0 then (-1, info)
      else
        match O.validate info with
        | (vstatus, info1) =>
          if vstatus = 0 then (0, { info1 with password := new_password.getD [] })
          else (0, info1)

/-- The session state produced by a completed `netr_server_authenticate2`
inside `netlogon_auth`: caller flags stored, challenges populated,
password wiped by the key derivation, the 16-byte strong session key
installed, both credentials computed, and the server-returned negotiate
flags stored. -/
def postAuthInfo (info0 : NetrInfo) (arg : Nat) (cc sc key c1 c2 : List Nat)
    (nego : Nat) : NetrInfo :=
  { info0 with flags := arg, client_challenge := cc, server_challenge := sc,
               password := [], session_key := key, session_key_len := 16,
               client_credential := c1, server_credential := c2,
               nego_flags := nego }

/-!  ### Concrete witness environments  -/

/-- Cipher oracle for the C4 witness. -/
def desW4 : List Nat → List Nat → Option (List Nat) :=
  fun k x => some (List.replicate 8 (k.getD 0 0 + x.getD 0 0))

/-- Cipher oracle for the C6 witness: outputs an all-zero block, which
fails the mitigation. -/
def desW6 : List Nat → List Nat → Option (List Nat) :=
  fun _ _ => some (List.replicate 8 0)

/-- Crypto oracle for the C5 witness. -/
def cryptoW5 : CryptoEnv :=
  { config_password := some (List.replicate 16 9)
    ntlm := fun _ => some (List.range 16)
    md5_session_ok := true
    md5 := fun _ => some (List.replicate 16 1)
    hmac_md5 := fun _ _ => some (List.replicate 16 2)
    des := fun k x => some (List.replicate 8 (k.getD 0 0 + x.getD 0 0)) }

/-- Session state for the C5 witness. -/
def infoW5 : NetrInfo :=
  { client_challenge := List.replicate 8 0
    server_challenge := List.replicate 8 0
    session_key := List.replicate 16 0
    session_key_len := 0
    client_credential := []
    server_credential := []
    nego_flags := 0
    password := []
    flags := 0
    use_secure_rpc := true
    timestamp := 0 }

/-- Crypto oracle for the C3 witness. -/
def cryptoW3 : CryptoEnv :=
  { config_password := some (List.replicate 16 9)
    ntlm := fun _ => some (List.range 16)
    md5_session_ok := true
    md5 := fun _ => some (List.replicate 16 5)
    hmac_md5 := fun _ _ => some (List.replicate 16 7)
    des := fun _ _ => none }

/-- Session state for the C3 witness. -/
def infoW3 : NetrInfo :=
  { client_challenge := List.replicate 8 1
    server_challenge := List.replicate 8 2
    session_key := List.replicate 16 0
    session_key_len := 0
    client_credential := []
    server_credential := []
    nego_flags := 0
    password := []
    flags := 0
    use_secure_rpc := true
    timestamp := 0 }

/-- Crypto oracle for the C7 counterexample and witness: every
primitive succeeds. -/
def cryptoW7 : CryptoEnv :=
  { config_password := some (List.replicate 16 9)
    ntlm := fun _ => some (List.range 16)
    md5_session_ok := true
    md5 := fun _ => some (List.replicate 16 5)
    hmac_md5 := fun _ _ => some (List.replicate 16 7)
    des := fun k x => some (List.replicate 8 (k.getD 0 0 + x.getD 0 0)) }

/-- Session state for C7: secure RPC disabled by configuration, so the
local proposal omits the secure-RPC flag. -/
def infoW7 : NetrInfo :=
  { client_challenge := List.replicate 8 1
    server_challenge := List.replicate 8 2
    session_key := List.replicate 16 0
    session_key_len := 0
    client_credential := []
    server_credential := []
    nego_flags := 0
    password := []
    flags := 0
    use_secure_rpc := false
    timestamp := 0 }

/-- Server reply for the C7 counterexample: the (misbehaving) server
returns the secure-RPC flag even though the local proposal omitted it. -/
def replyW7 : Auth2Reply :=
  { call_ok := true
    status := 0
    negotiate_flags := 1073741824
    server_credential := List.replicate 8 16 }

/-- Server reply for the C7 amended-claim witness: the returned flags
omit secure-RPC. -/
def replyW7b : Auth2Reply :=
  { call_ok := true
    status := 0
    negotiate_flags := 16384
    server_credential := List.replicate 8 16 }

/-- Full orchestrator environment for the C1 witness: every external
step succeeds and the server returns exactly the locally computed
server credential. -/
def envW1 : NetlogonEnv :=
  { open_status := 0
    getnetbiosname_ok := true
    getdomainname_ok := true
    getfqdomainname_ok := true
    random := fun _ => [0, 1, 2, 3, 4, 5, 6, 7]
    reqchal_call_ok := true
    reqchal_status := 0
    server_challenge := List.replicate 8 2
    crypto :=
      { config_password := some (List.replicate 16 9)
        ntlm := fun _ => some (List.range 16)
        md5_session_ok := true
        md5 := fun _ => some (List.replicate 16 5)
        hmac_md5 := fun _ _ => some (List.replicate 16 7)
        des := fun k x => some (List.replicate 8 (k.getD 0 0 + x.getD 0 0)) }
    auth2_reply :=
      { call_ok := true
        status := 0
        negotiate_flags := 16384
        server_credential := List.replicate 8 16 } }

/-- Initial session state for the C1 and C9 witnesses. -/
def infoW1 : NetrInfo :=
  { client_challenge := []
    server_challenge := []
    session_key := []
    session_key_len := 0
    client_credential := []
    server_credential := []
    nego_flags := 0
    password := []
    flags := 0
    use_secure_rpc := true
    timestamp := 0 }

/-- Orchestrator environment for the C9 counterexample and witness:
identical to a successful run except that the server returns a
mismatching credential in the authenticate step. -/
def envW9 : NetlogonEnv :=
  { open_status := 0
    getnetbiosname_ok := true
    getdomainname_ok := true
    getfqdomainname_ok := true
    random := fun _ => [0, 1, 2, 3, 4, 5, 6, 7]
    reqchal_call_ok := true
    reqchal_status := 0
    server_challenge := List.replicate 8 2
    crypto :=
      { config_password := some (List.replicate 16 9)
        ntlm := fun _ => some (List.range 16)
        md5_session_ok := true
        md5 := fun _ => some (List.replicate 16 5)
        hmac_md5 := fun _ _ => some (List.replicate 16 7)
        des := fun k x => some (List.replicate 8 (k.getD 0 0 + x.getD 0 0)) }
    auth2_reply :=
      { call_ok := true
        status := 0
        negotiate_flags := 16384
        server_credential := List.replicate 8 255 } }

/-- Chain oracle for the C8 witness: authenticator setup and chain
validation succeed and leave the state unchanged. -/
def oracleW8 : ChainOracle :=
  { setup := fun i => some i
    validate := fun i => (0, i) }

/-- Cipher oracle for the C8 witness. -/
def desW8 : List Nat → List Nat → Option (List Nat) :=
  fun k x => some (List.replicate 8 (k.getD 0 0 + x.getD 0 0))

/-- Session state for the C8 witness: an established session holding a
16-byte session key and the old trust password. -/
def infoW8 : NetrInfo :=
  { client_challenge := List.replicate 8 1
    server_challenge := List.replicate 8 2
    session_key := List.replicate 16 3
    session_key_len := 16
    client_credential := List.replicate 8 4
    server_credential := List.replicate 8 5
    nego_flags := 16384
    password := List.replicate 16 1
    flags := 1
    use_secure_rpc := true
    timestamp := 0 }

/-!  ## Theorems  -/

/-- Helper: a number whose bit 14 is set is nonzero after masking with
the strong-key flag. -/
lemma and_strongkey_ne_zero (x : Nat) (h : x.testBit 14 = true) :
    x &&& NETR_NEGO_STRONGKEY_FLAG ≠ 0 := by
  intro h0
  have h14 : (x &&& NETR_NEGO_STRONGKEY_FLAG).testBit 14 = true := by
    rw [Nat.testBit_and, h, NETR_NEGO_STRONGKEY_FLAG]
    decide
  rw [h0] at h14
  simp [Nat.zero_testBit] at h14

/-- Helper: the proposed negotiate flags always contain the strong-key
bit, whatever the base flags and the secure-RPC configuration. -/
lemma strongkey_in_auth2_flags (base : Nat) (usr : Bool) :
    auth2_negotiate_flags base usr &&& NETR_NEGO_STRONGKEY_FLAG ≠ 0 := by
  apply and_strongkey_ne_zero
  cases usr with
  | true =>
    simp only [auth2_negotiate_flags, netr_server_auth2_flags,
      NETR_NEGO_STRONGKEY_FLAG, NETR_NEGO_SECURE_RPC_FLAG, if_true,
      Nat.testBit_or, Bool.or_eq_true]
    exact Or.inl (Or.inr (by decide))
  | false =>
    simp only [auth2_negotiate_flags, netr_server_auth2_flags, maskOut32,
      NETR_NEGO_STRONGKEY_FLAG, NETR_NEGO_SECURE_RPC_FLAG,
      Bool.false_eq_true, if_false, Nat.testBit_and, Nat.testBit_or,
      Bool.and_eq_true, Bool.or_eq_true]
    exact ⟨Or.inl (Or.inr (by decide)), by decide⟩

/-- C10: the legacy 64-bit session-key derivation branch of
`netr_server_authenticate2` is unreachable — for every base-flag
constant and every secure-RPC configuration setting, the proposed
negotiate flags contain the strong-key bit, so the session-key step
always invokes the strong 128-bit derivation. -/
theorem C10_skey64_unreachable (E : CryptoEnv) (base : Nat) (usr : Bool)
    (info : NetrInfo) :
    auth2_negotiate_flags base usr &&& NETR_NEGO_STRONGKEY_FLAG ≠ 0 ∧
    auth2_gen_skey E (auth2_negotiate_flags base usr) info = netr_gen_skey128 E info := by
  refine ⟨strongkey_in_auth2_flags base usr, ?_⟩
  rw [auth2_gen_skey, if_pos (strongkey_in_auth2_flags base usr)]

/-- Helper: unfolding of `passes_dc_mitigation` into its logical form:
some index among the first five matches no other index. -/
lemma passes_dc_mitigation_iff (buf : List Nat) :
    passes_dc_mitigation buf = true ↔
      ∃ i < 5, ∀ j < 5, j ≠ i → buf.getD i 0 ≠ buf.getD j 0 := by
  simp only [passes_dc_mitigation, List.any_eq_true, List.all_eq_true,
    List.mem_range, Bool.or_eq_true, beq_iff_eq, bne_iff_ne]
  constructor
  · rintro ⟨i, hi, h⟩
    exact ⟨i, hi, fun j hj hne => (h j hj).resolve_left fun e => hne e.symm⟩
  · rintro ⟨i, hi, h⟩
    refine ⟨i, hi, fun j hj => ?_⟩
    by_cases e : i = j
    · exact Or.inl e
    · exact Or.inr (h j hj fun je => e je.symm)

/-- C2: for every byte sequence of length at least 5, the
uniqueness-mitigation check returns true iff at least one of the first
five bytes differs from each of the other four; consequently it returns
false on a fully-paired-duplicate first five and on an all-identical
first five (e.g. all zero). -/
theorem C2_mitigation_check (buf : List Nat) (_hlen : 5 ≤ buf.length) :
    (passes_dc_mitigation buf = true ↔
      ∃ i < 5, ∀ j < 5, j ≠ i → buf.getD i 0 ≠ buf.getD j 0) ∧
    ((∀ i < 5, ∃ j < 5, j ≠ i ∧ buf.getD i 0 = buf.getD j 0) →
      passes_dc_mitigation buf = false) ∧
    (∀ a, (∀ i < 5, buf.getD i 0 = a) → passes_dc_mitigation buf = false) := by
  have hiff := passes_dc_mitigation_iff buf
  have hpaired : (∀ i < 5, ∃ j < 5, j ≠ i ∧ buf.getD i 0 = buf.getD j 0) →
      passes_dc_mitigation buf = false := by
    intro h
    cases hp : passes_dc_mitigation buf with
    | false => rfl
    | true =>
      obtain ⟨i, hi, hu⟩ := hiff.mp hp
      obtain ⟨j, hj, hne, heq⟩ := h i hi
      exact absurd heq (hu j hj hne)
  refine ⟨hiff, hpaired, fun a ha => hpaired fun i hi => ?_⟩
  by_cases e : i = 0
  · exact ⟨1, by omega, by omega, by rw [ha i hi, ha 1 (by omega)]⟩
  · exact ⟨0, by omega, by omega, by rw [ha i hi, ha 0 (by omega)]⟩

/-- Witness for C2 at the concrete buffer `[7, 7, 3, 9, 9, 1]`. -/
theorem C2_mitigation_check_witness :
    5 ≤ ([7, 7, 3, 9, 9, 1] : List Nat).length ∧
    ((passes_dc_mitigation [7, 7, 3, 9, 9, 1] = true ↔
      ∃ i < 5, ∀ j < 5, j ≠ i →
        ([7, 7, 3, 9, 9, 1] : List Nat).getD i 0 ≠ ([7, 7, 3, 9, 9, 1] : List Nat).getD j 0) ∧
    ((∀ i < 5, ∃ j < 5, j ≠ i ∧
        ([7, 7, 3, 9, 9, 1] : List Nat).getD i 0 = ([7, 7, 3, 9, 9, 1] : List Nat).getD j 0) →
      passes_dc_mitigation [7, 7, 3, 9, 9, 1] = false) ∧
    (∀ a, (∀ i < 5, ([7, 7, 3, 9, 9, 1] : List Nat).getD i 0 = a) →
      passes_dc_mitigation [7, 7, 3, 9, 9, 1] = false)) :=
  ⟨by decide, C2_mitigation_check [7, 7, 3, 9, 9, 1] (by decide)⟩

/-- C4: credential generation builds its cipher input from the two
little-endian 32-bit words of the challenge, adding the increment with
uint32 wraparound to the first word only, and chains two block-cipher
passes keyed by session-key bytes 0–6 and 7–13, yielding the 8-byte
credential. -/
theorem C4_gen_credentials (des : List Nat → List Nat → Option (List Nat))
    (session_key challenge : List Nat) (timestamp : Nat)
    (_hsk : 14 ≤ session_key.length) (_hch : challenge.length = 8)
    (_hts : timestamp < 4294967296)
    (hdes : ∀ k x, ∃ y, des k x = some y ∧ y.length = 8) :
    ∃ buffer cred,
      des (session_key.take 7)
        (LE_OUT32 ((LE_IN32 challenge + timestamp) % 4294967296) ++
          LE_OUT32 (LE_IN32 (challenge.drop 4))) = some buffer ∧
      des ((session_key.drop 7).take 7) buffer = some cred ∧
      cred.length = 8 ∧
      netr_gen_credentials des session_key challenge timestamp false =
        (SMBAUTH_SUCCESS, some cred) := by
  obtain ⟨b, hb, _⟩ := hdes (session_key.take 7) (netr_cred_input challenge timestamp)
  obtain ⟨c, hc, hcl⟩ := hdes ((session_key.drop 7).take 7) b
  refine ⟨b, c, ?_, hc, hcl, ?_⟩
  · simpa [netr_cred_input] using hb
  · simp [netr_gen_credentials, NETR_DESKEY_LEN, hb, hc]

/-- Witness for C4 at a concrete session key, challenge and increment. -/
theorem C4_gen_credentials_witness :
    14 ≤ (List.replicate 16 3 : List Nat).length ∧
    ([1, 2, 3, 4, 5, 6, 7, 8] : List Nat).length = 8 ∧
    (5 : Nat) < 4294967296 ∧
    (∀ k x, ∃ y, desW4 k x = some y ∧ y.length = 8) ∧
    (∃ buffer cred,
      desW4 ((List.replicate 16 3 : List Nat).take 7)
        (LE_OUT32 ((LE_IN32 [1, 2, 3, 4, 5, 6, 7, 8] + 5) % 4294967296) ++
          LE_OUT32 (LE_IN32 (([1, 2, 3, 4, 5, 6, 7, 8] : List Nat).drop 4))) = some buffer ∧
      desW4 (((List.replicate 16 3 : List Nat).drop 7).take 7) buffer = some cred ∧
      cred.length = 8 ∧
      netr_gen_credentials desW4 (List.replicate 16 3) [1, 2, 3, 4, 5, 6, 7, 8] 5 false =
        (SMBAUTH_SUCCESS, some cred)) :=
  ⟨by decide, by decide, by decide, fun k x => ⟨_, rfl, by simp [desW4]⟩,
    C4_gen_credentials desW4 (List.replicate 16 3) [1, 2, 3, 4, 5, 6, 7, 8] 5
      (by decide) (by decide) (by decide) (fun k x => ⟨_, rfl, by simp [desW4]⟩)⟩

/-- C5: the legacy 64-bit session-key derivation forms the word-wise
little-endian wraparound sum of the two challenges and chains two
block-cipher passes keyed by the asymmetric NTLM-hash slices: bytes 0–6
for the first pass and bytes 9–15 (`&md4hash[9]`) for the second. -/
theorem C5_gen_skey64 (E : CryptoEnv) (info : NetrInfo) (pw h b key : List Nat)
    (hcfg : E.config_password = some pw) (hpw : pw.getD 0 0 ≠ 0)
    (hntlm : E.ntlm pw = some h) (_hlen : h.length = 16)
    (hdes1 : E.des (h.take 7)
      (LE_OUT32 ((LE_IN32 info.client_challenge + LE_IN32 info.server_challenge) %
          4294967296) ++
        LE_OUT32 ((LE_IN32 (info.client_challenge.drop 4) +
          LE_IN32 (info.server_challenge.drop 4)) % 4294967296)) = some b)
    (hdes2 : E.des ((h.drop 9).take 7) b = some key) (_hklen : key.length = 8) :
    netr_gen_skey64 E info =
      (SMBAUTH_SUCCESS,
        { info with password := [],
                    session_key := key ++ info.session_key.drop 8,
                    session_key_len := 8 }) := by
  simp only [netr_gen_skey64, hcfg]
  rw [if_neg hpw]
  simp [NETR_DESKEY_LEN, hntlm, hdes1, hdes2]

/-- C6: with the retry-allowed flag set, a generated credential that
fails the uniqueness mitigation yields the distinct `SMBAUTH_RETRY`
result (no internal loop); with the flag clear the mitigation is not
applied and the credential is returned as computed. -/
theorem C6_gen_credentials_retry (des : List Nat → List Nat → Option (List Nat))
    (session_key challenge : List Nat) (timestamp : Nat) (b cred : List Nat)
    (hdes1 : des (session_key.take 7) (netr_cred_input challenge timestamp) = some b)
    (hdes2 : des ((session_key.drop 7).take 7) b = some cred) :
    (passes_dc_mitigation cred = false →
      netr_gen_credentials des session_key challenge timestamp true =
        (SMBAUTH_RETRY, some cred)) ∧
    netr_gen_credentials des session_key challenge timestamp false =
      (SMBAUTH_SUCCESS, some cred) ∧
    SMBAUTH_RETRY ≠ SMBAUTH_SUCCESS ∧ SMBAUTH_RETRY ≠ SMBAUTH_FAILURE := by
  refine ⟨fun hm => ?_, ?_, by decide, by decide⟩
  · simp [netr_gen_credentials, NETR_DESKEY_LEN, hdes1, hdes2, hm]
  · simp [netr_gen_credentials, NETR_DESKEY_LEN, hdes1, hdes2]

/-- Witness for C6: a credential of all-zero bytes fails the mitigation,
so the retry-allowed call returns `SMBAUTH_RETRY` while the plain call
returns it as computed. -/
theorem C6_gen_credentials_retry_witness :
    desW6 ((List.replicate 16 3 : List Nat).take 7)
        (netr_cred_input [1, 2, 3, 4, 5, 6, 7, 8] 0) = some (List.replicate 8 0) ∧
    desW6 (((List.replicate 16 3 : List Nat).drop 7).take 7) (List.replicate 8 0) =
      some (List.replicate 8 0) ∧
    ((passes_dc_mitigation (List.replicate 8 0) = false →
      netr_gen_credentials desW6 (List.replicate 16 3) [1, 2, 3, 4, 5, 6, 7, 8] 0 true =
        (SMBAUTH_RETRY, some (List.replicate 8 0))) ∧
    netr_gen_credentials desW6 (List.replicate 16 3) [1, 2, 3, 4, 5, 6, 7, 8] 0 false =
      (SMBAUTH_SUCCESS, some (List.replicate 8 0)) ∧
    SMBAUTH_RETRY ≠ SMBAUTH_SUCCESS ∧ SMBAUTH_RETRY ≠ SMBAUTH_FAILURE) :=
  ⟨by decide, by decide,
    C6_gen_credentials_retry desW6 (List.replicate 16 3) [1, 2, 3, 4, 5, 6, 7, 8] 0
      (List.replicate 8 0) (List.replicate 8 0) (by decide) (by decide)⟩

/-- Helper: the success path of the strong 128-bit session-key
derivation, given a configured non-empty password and successful
primitives. -/
lemma gen_skey128_success (E : CryptoEnv) (info : NetrInfo)
    (pw nh dg key : List Nat)
    (hcfg : E.config_password = some pw) (hpw : pw.getD 0 0 ≠ 0)
    (hntlm : E.ntlm pw = some nh) (hsess : E.md5_session_ok = true)
    (hmd5 : E.md5 (List.replicate 4 0 ++ info.client_challenge.take 8 ++
      info.server_challenge.take 8) = some dg)
    (hhmac : E.hmac_md5 dg nh = some key) :
    netr_gen_skey128 E info =
      (SMBAUTH_SUCCESS,
        { info with password := [], session_key := key, session_key_len := 16 }) := by
  simp only [netr_gen_skey128, hcfg]
  rw [if_neg hpw]
  simp only [hntlm, hsess, Bool.not_true, Bool.false_eq_true, if_false,
    NETR_SESSKEY_ZEROBUF_SZ, hmd5, hhmac]

/-- C3: the strong 128-bit derivation, with a non-empty configured trust
password and successful primitives, stores as session key the HMAC-MD5 —
keyed by the NTLM hash of the password — of the MD5 digest of
`zerobuf(4) ++ client_challenge(8) ++ server_challenge(8)`; when the
password is unavailable or empty it returns `SMBAUTH_FAILURE` and
leaves the session-key field untouched (no zero key is produced). -/
theorem C3_gen_skey128 (E : CryptoEnv) (info : NetrInfo)
    (pw ntlmhash md5digest key : List Nat)
    (hcfg : E.config_password = some pw) (hpw : pw.getD 0 0 ≠ 0)
    (hntlm : E.ntlm pw = some ntlmhash) (_hnlen : ntlmhash.length = 16)
    (hsess : E.md5_session_ok = true)
    (hmd5 : E.md5 (List.replicate 4 0 ++ info.client_challenge.take 8 ++
      info.server_challenge.take 8) = some md5digest)
    (hhmac : E.hmac_md5 md5digest ntlmhash = some key) (hklen : key.length = 16) :
    (netr_gen_skey128 E info =
      (SMBAUTH_SUCCESS,
        { info with password := [], session_key := key, session_key_len := 16 }) ∧
      key.length = 16) ∧
    (∀ (E' : CryptoEnv) (info' : NetrInfo), E'.config_password = none →
      netr_gen_skey128 E' info' = (SMBAUTH_FAILURE, { info' with password := [] })) ∧
    (∀ (E' : CryptoEnv) (info' : NetrInfo) (pw' : List Nat),
      E'.config_password = some pw' → pw'.getD 0 0 = 0 →
      netr_gen_skey128 E' info' = (SMBAUTH_FAILURE, { info' with password := [] })) := by
  refine ⟨⟨?_, hklen⟩, fun E' info' hnone => ?_, fun E' info' pw' hsome hempty => ?_⟩
  · exact gen_skey128_success E info pw ntlmhash md5digest key hcfg hpw hntlm
      hsess hmd5 hhmac
  · simp only [netr_gen_skey128, hnone]
  · simp only [netr_gen_skey128, hsome]
    rw [if_pos hempty]

/-- Witness for C5 at a concrete environment and state. -/
theorem C5_gen_skey64_witness :
    cryptoW5.config_password = some (List.replicate 16 9) ∧
    (List.replicate 16 9 : List Nat).getD 0 0 ≠ 0 ∧
    cryptoW5.ntlm (List.replicate 16 9) = some (List.range 16) ∧
    (List.range 16).length = 16 ∧
    cryptoW5.des ((List.range 16).take 7)
      (LE_OUT32 ((LE_IN32 infoW5.client_challenge + LE_IN32 infoW5.server_challenge) %
          4294967296) ++
        LE_OUT32 ((LE_IN32 (infoW5.client_challenge.drop 4) +
          LE_IN32 (infoW5.server_challenge.drop 4)) % 4294967296)) =
      some (List.replicate 8 0) ∧
    cryptoW5.des (((List.range 16).drop 9).take 7) (List.replicate 8 0) =
      some (List.replicate 8 9) ∧
    (List.replicate 8 9 : List Nat).length = 8 ∧
    netr_gen_skey64 cryptoW5 infoW5 =
      (SMBAUTH_SUCCESS,
        { infoW5 with password := [],
                      session_key := List.replicate 8 9 ++ infoW5.session_key.drop 8,
                      session_key_len := 8 }) :=
  ⟨rfl, by decide, rfl, by decide, by decide, by decide, by decide,
    C5_gen_skey64 cryptoW5 infoW5 (List.replicate 16 9) (List.range 16)
      (List.replicate 8 0) (List.replicate 8 9) rfl (by decide) rfl (by decide)
      (by decide) (by decide) (by decide)⟩

/-- Witness for C3 at a concrete environment and state. -/
theorem C3_gen_skey128_witness :
    cryptoW3.config_password = some (List.replicate 16 9) ∧
    (List.replicate 16 9 : List Nat).getD 0 0 ≠ 0 ∧
    cryptoW3.ntlm (List.replicate 16 9) = some (List.range 16) ∧
    (List.range 16).length = 16 ∧
    cryptoW3.md5_session_ok = true ∧
    cryptoW3.md5 (List.replicate 4 0 ++ infoW3.client_challenge.take 8 ++
      infoW3.server_challenge.take 8) = some (List.replicate 16 5) ∧
    cryptoW3.hmac_md5 (List.replicate 16 5) (List.range 16) = some (List.replicate 16 7) ∧
    (List.replicate 16 7 : List Nat).length = 16 ∧
    ((netr_gen_skey128 cryptoW3 infoW3 =
      (SMBAUTH_SUCCESS,
        { infoW3 with password := [], session_key := List.replicate 16 7,
                      session_key_len := 16 }) ∧
      (List.replicate 16 7 : List Nat).length = 16) ∧
    (∀ (E' : CryptoEnv) (info' : NetrInfo), E'.config_password = none →
      netr_gen_skey128 E' info' = (SMBAUTH_FAILURE, { info' with password := [] })) ∧
    (∀ (E' : CryptoEnv) (info' : NetrInfo) (pw' : List Nat),
      E'.config_password = some pw' → pw'.getD 0 0 = 0 →
      netr_gen_skey128 E' info' = (SMBAUTH_FAILURE, { info' with password := [] }))) :=
  ⟨rfl, by decide, rfl, by decide, rfl, rfl, rfl, by decide,
    C3_gen_skey128 cryptoW3 infoW3 (List.replicate 16 9) (List.range 16)
      (List.replicate 16 5) (List.replicate 16 7) rfl (by decide) rfl (by decide)
      rfl rfl rfl (by decide)⟩

/-- Helper: full reduction of `netr_server_authenticate2` on the
success path — strong key derived, both credentials computed, RPC call
succeeded with zero status.  The return code is the credential
comparison; the final state stores the server-returned negotiate
flags verbatim. -/
lemma auth2_reduction (E : CryptoEnv) (base : Nat) (reply : Auth2Reply)
    (info : NetrInfo) (pw nh dg key b1 c1 b2 c2 : List Nat)
    (hcfg : E.config_password = some pw) (hpw : pw.getD 0 0 ≠ 0)
    (hntlm : E.ntlm pw = some nh) (hsess : E.md5_session_ok = true)
    (hmd5 : E.md5 (List.replicate 4 0 ++ info.client_challenge.take 8 ++
      info.server_challenge.take 8) = some dg)
    (hhmac : E.hmac_md5 dg nh = some key)
    (hdes1 : E.des (key.take 7) (netr_cred_input info.client_challenge 0) = some b1)
    (hdes2 : E.des ((key.drop 7).take 7) b1 = some c1)
    (hdes3 : E.des (key.take 7) (netr_cred_input info.server_challenge 0) = some b2)
    (hdes4 : E.des ((key.drop 7).take 7) b2 = some c2)
    (hcall : reply.call_ok = true) (hst : reply.status = 0) :
    netr_server_authenticate2 E base reply info =
      ((if c2.take 8 = reply.server_credential.take 8 then 0 else 1 : Int),
        postAuthInfo info info.flags info.client_challenge info.server_challenge
          key c1 c2 reply.negotiate_flags) := by
  have h128 := gen_skey128_success E info pw nh dg key hcfg hpw hntlm hsess hmd5 hhmac
  have hsk := strongkey_in_auth2_flags base info.use_secure_rpc
  simp [netr_server_authenticate2, auth2_gen_skey, hsk, h128,
    netr_gen_credentials, NETR_DESKEY_LEN, hdes1, hdes2, hdes3, hdes4,
    hcall, hst, postAuthInfo, SMBAUTH_SUCCESS, SMBAUTH_FAILURE]

/-- C7 (amended): on the success path, the negotiated flags stored in
the session state are exactly the flags returned by the server (the
code trusts the server to have returned the intersection); in
particular, when the server's response omits secure-RPC, the stored
flags omit it and the subsequent secure session open falls back to the
unauthenticated bind. -/
theorem C7_nego_flags_stored (E : CryptoEnv) (base : Nat) (reply : Auth2Reply)
    (info : NetrInfo) (pw nh dg key b1 c1 b2 c2 : List Nat)
    (hcfg : E.config_password = some pw) (hpw : pw.getD 0 0 ≠ 0)
    (hntlm : E.ntlm pw = some nh) (hsess : E.md5_session_ok = true)
    (hmd5 : E.md5 (List.replicate 4 0 ++ info.client_challenge.take 8 ++
      info.server_challenge.take 8) = some dg)
    (hhmac : E.hmac_md5 dg nh = some key)
    (hdes1 : E.des (key.take 7) (netr_cred_input info.client_challenge 0) = some b1)
    (hdes2 : E.des ((key.drop 7).take 7) b1 = some c1)
    (hdes3 : E.des (key.take 7) (netr_cred_input info.server_challenge 0) = some b2)
    (hdes4 : E.des ((key.drop 7).take 7) b2 = some c2)
    (hcall : reply.call_ok = true) (hst : reply.status = 0) :
    (netr_server_authenticate2 E base reply info).2.nego_flags =
      reply.negotiate_flags ∧
    (reply.negotiate_flags &&& NETR_NEGO_SECURE_RPC_FLAG = 0 →
      netr_open_secure_bind (netr_server_authenticate2 E base reply info).2.nego_flags =
        BindKind.plain) := by
  rw [auth2_reduction E base reply info pw nh dg key b1 c1 b2 c2 hcfg hpw hntlm
    hsess hmd5 hhmac hdes1 hdes2 hdes3 hdes4 hcall hst]
  refine ⟨by simp [postAuthInfo], fun h0 => ?_⟩
  simp [postAuthInfo, netr_open_secure_bind, h0]

/-- Counterexample to C7 as stated: with secure RPC disabled locally
(so the proposal omits the secure-RPC flag) and a server reply that
nevertheless returns the secure-RPC flag, the stored negotiated flags
are _not_ the intersection of the proposal with the reply — they
contain secure-RPC, and the subsequent session open takes the secure
bind path rather than falling back to the unauthenticated one. -/
theorem C7_counterexample :
    (netr_server_authenticate2 cryptoW7 0 replyW7 infoW7).2.nego_flags ≠
      auth2_negotiate_flags 0 infoW7.use_secure_rpc &&& replyW7.negotiate_flags ∧
    auth2_negotiate_flags 0 infoW7.use_secure_rpc &&& NETR_NEGO_SECURE_RPC_FLAG = 0 ∧
    (netr_server_authenticate2 cryptoW7 0 replyW7 infoW7).2.nego_flags &&&
      NETR_NEGO_SECURE_RPC_FLAG ≠ 0 ∧
    netr_open_secure_bind
      (netr_server_authenticate2 cryptoW7 0 replyW7 infoW7).2.nego_flags =
      BindKind.secure := by
  decide

/-- Witness for the amended C7 at a concrete environment whose server
reply omits the secure-RPC flag. -/
theorem C7_nego_flags_stored_witness :
    cryptoW7.config_password = some (List.replicate 16 9) ∧
    replyW7b.call_ok = true ∧ replyW7b.status = 0 ∧
    ((netr_server_authenticate2 cryptoW7 0 replyW7b infoW7).2.nego_flags =
      replyW7b.negotiate_flags ∧
    (replyW7b.negotiate_flags &&& NETR_NEGO_SECURE_RPC_FLAG = 0 →
      netr_open_secure_bind
        (netr_server_authenticate2 cryptoW7 0 replyW7b infoW7).2.nego_flags =
        BindKind.plain)) :=
  ⟨rfl, rfl, rfl,
    C7_nego_flags_stored cryptoW7 0 replyW7b infoW7 (List.replicate 16 9)
      (List.range 16) (List.replicate 16 5) (List.replicate 16 7)
      (List.replicate 8 8) (List.replicate 8 15) (List.replicate 8 9)
      (List.replicate 8 16) rfl (by decide) rfl rfl rfl rfl (by decide)
      (by decide) (by decide) (by decide) rfl rfl⟩

/-- Helper: or-ing in the VALID flag makes the VALID bit of the flags
word nonzero. -/
lemma valid_flag_set (x : Nat) : (x ||| NETR_FLG_VALID) &&& NETR_FLG_VALID ≠ 0 := by
  intro h0
  have h : ((x ||| NETR_FLG_VALID) &&& NETR_FLG_VALID).testBit 0 = true := by
    simp only [NETR_FLG_VALID, Nat.testBit_and, Nat.testBit_or, Bool.and_eq_true,
      Bool.or_eq_true]
    exact ⟨Or.inr (by decide), by decide⟩
  rw [h0] at h
  simp [Nat.zero_testBit] at h

/-- Helper: full reduction of one `netlogon_auth` attempt on the path
where every external step succeeds, down to the final credential
comparison. -/
lemma netlogon_auth_reduction (E : NetlogonEnv) (base fuel arg : Nat)
    (info0 : NetrInfo) (cc pw nh dg key b1 c1 b2 c2 : List Nat)
    (hopen : E.open_status = 0)
    (hnb : E.getnetbiosname_ok = true)
    (hdom : E.getdomainname_ok = true)
    (hfq : E.getfqdomainname_ok = true)
    (hchal : find_challenge E.random fuel = some cc)
    (hr1 : E.reqchal_call_ok = true) (hr2 : E.reqchal_status = 0)
    (hcfg : E.crypto.config_password = some pw) (hpw : pw.getD 0 0 ≠ 0)
    (hntlm : E.crypto.ntlm pw = some nh) (hsess : E.crypto.md5_session_ok = true)
    (hmd5 : E.crypto.md5 (List.replicate 4 0 ++ cc.take 8 ++
      E.server_challenge.take 8) = some dg)
    (hhmac : E.crypto.hmac_md5 dg nh = some key)
    (hdes1 : E.crypto.des (key.take 7) (netr_cred_input cc 0) = some b1)
    (hdes2 : E.crypto.des ((key.drop 7).take 7) b1 = some c1)
    (hdes3 : E.crypto.des (key.take 7) (netr_cred_input E.server_challenge 0) = some b2)
    (hdes4 : E.crypto.des ((key.drop 7).take 7) b2 = some c2)
    (hcall : E.auth2_reply.call_ok = true) (hst : E.auth2_reply.status = 0) :
    (c2.take 8 = E.auth2_reply.server_credential.take 8 →
      netlogon_auth E base fuel arg info0 =
        some ⟨NT_STATUS_SUCCESS,
          { postAuthInfo info0 arg cc E.server_challenge key c1 c2
              E.auth2_reply.negotiate_flags with flags := arg ||| NETR_FLG_VALID },
          true⟩) ∧
    (c2.take 8 ≠ E.auth2_reply.server_credential.take 8 →
      netlogon_auth E base fuel arg info0 =
        some ⟨NT_STATUS_UNSUCCESSFUL,
          postAuthInfo info0 arg cc E.server_challenge key c1 c2
            E.auth2_reply.negotiate_flags,
          false⟩) := by
  have hauth := auth2_reduction E.crypto base E.auth2_reply
    { info0 with
        session_key := [0, 0, 0, 0, 0, 0, 0, 0, 0, 0, 0, 0, 0, 0, 0, 0],
        session_key_len := 0, flags := arg, client_challenge := cc,
        server_challenge := E.server_challenge }
    pw nh dg key b1 c1 b2 c2 hcfg hpw hntlm hsess hmd5 hhmac hdes1 hdes2
    hdes3 hdes4 hcall hst
  constructor <;> intro hm
  · simp [netlogon_auth, hopen, hnb, hdom, hfq, hchal, hr1, hr2, hauth, hm,
      postAuthInfo]
  · simp [netlogon_auth, hopen, hnb, hdom, hfq, hchal, hr1, hr2, hauth, hm,
      postAuthInfo]

/-- C1: in the authenticate step the channel is established iff the
locally computed server credential equals the server-returned one
byte-for-byte: on an exact 8-byte match the attempt returns
`NT_STATUS_SUCCESS`, sets the `NETR_FLG_VALID` bit and records the
sequence marker; on any mismatch it returns `NT_STATUS_UNSUCCESSFUL`,
leaves the valid bit clear and records no marker. -/
theorem C1_authenticate_establish_iff (E : NetlogonEnv) (base fuel arg : Nat)
    (info0 : NetrInfo) (cc pw nh dg key b1 c1 b2 c2 : List Nat)
    (hopen : E.open_status = 0)
    (hnb : E.getnetbiosname_ok = true)
    (hdom : E.getdomainname_ok = true)
    (hfq : E.getfqdomainname_ok = true)
    (hchal : find_challenge E.random fuel = some cc)
    (hr1 : E.reqchal_call_ok = true) (hr2 : E.reqchal_status = 0)
    (hcfg : E.crypto.config_password = some pw) (hpw : pw.getD 0 0 ≠ 0)
    (hntlm : E.crypto.ntlm pw = some nh) (hsess : E.crypto.md5_session_ok = true)
    (hmd5 : E.crypto.md5 (List.replicate 4 0 ++ cc.take 8 ++
      E.server_challenge.take 8) = some dg)
    (hhmac : E.crypto.hmac_md5 dg nh = some key)
    (hdes1 : E.crypto.des (key.take 7) (netr_cred_input cc 0) = some b1)
    (hdes2 : E.crypto.des ((key.drop 7).take 7) b1 = some c1)
    (hdes3 : E.crypto.des (key.take 7) (netr_cred_input E.server_challenge 0) = some b2)
    (hdes4 : E.crypto.des ((key.drop 7).take 7) b2 = some c2)
    (hcall : E.auth2_reply.call_ok = true) (hst : E.auth2_reply.status = 0)
    (hc2len : c2.length = 8)
    (hrlen : E.auth2_reply.server_credential.length = 8)
    (harg : arg &&& NETR_FLG_VALID = 0) :
    ∃ out, netlogon_auth E base fuel arg info0 = some out ∧
      (c2 = E.auth2_reply.server_credential →
        out.status = NT_STATUS_SUCCESS ∧
        out.info.flags &&& NETR_FLG_VALID ≠ 0 ∧
        out.seqnum_updated = true) ∧
      (c2 ≠ E.auth2_reply.server_credential →
        out.status = NT_STATUS_UNSUCCESSFUL ∧
        out.info.flags &&& NETR_FLG_VALID = 0 ∧
        out.seqnum_updated = false) := by
  obtain ⟨hA, hB⟩ := netlogon_auth_reduction E base fuel arg info0 cc pw nh dg
    key b1 c1 b2 c2 hopen hnb hdom hfq hchal hr1 hr2 hcfg hpw hntlm hsess
    hmd5 hhmac hdes1 hdes2 hdes3 hdes4 hcall hst
  have h1 : c2.take 8 = c2 := by rw [← hc2len]; exact List.take_length c2
  have h2 : E.auth2_reply.server_credential.take 8 = E.auth2_reply.server_credential := by
    rw [← hrlen]; exact List.take_length _
  have htake : c2.take 8 = E.auth2_reply.server_credential.take 8 ↔
      c2 = E.auth2_reply.server_credential := by rw [h1, h2]
  by_cases hm : c2 = E.auth2_reply.server_credential
  · refine ⟨_, hA (htake.mpr hm), fun _ => ⟨rfl, ?_, rfl⟩, fun hne => absurd hm hne⟩
    simpa [postAuthInfo] using valid_flag_set arg
  · refine ⟨_, hB (fun hc => hm (htake.mp hc)), fun heq => absurd heq hm,
      fun _ => ⟨rfl, ?_, rfl⟩⟩
    simpa [postAuthInfo] using harg

/-- Witness for C1: a concrete environment in which the server returns
exactly the locally computed server credential. -/
theorem C1_authenticate_establish_iff_witness :
    envW1.open_status = 0 ∧
    envW1.getnetbiosname_ok = true ∧
    envW1.getdomainname_ok = true ∧
    envW1.getfqdomainname_ok = true ∧
    find_challenge envW1.random 1 = some [0, 1, 2, 3, 4, 5, 6, 7] ∧
    envW1.reqchal_call_ok = true ∧
    envW1.reqchal_status = 0 ∧
    envW1.crypto.config_password = some (List.replicate 16 9) ∧
    (List.replicate 16 9 : List Nat).getD 0 0 ≠ 0 ∧
    envW1.crypto.ntlm (List.replicate 16 9) = some (List.range 16) ∧
    envW1.crypto.md5_session_ok = true ∧
    envW1.crypto.md5 (List.replicate 4 0 ++
      ([0, 1, 2, 3, 4, 5, 6, 7] : List Nat).take 8 ++
      envW1.server_challenge.take 8) = some (List.replicate 16 5) ∧
    envW1.crypto.hmac_md5 (List.replicate 16 5) (List.range 16) =
      some (List.replicate 16 7) ∧
    envW1.crypto.des ((List.replicate 16 7 : List Nat).take 7)
      (netr_cred_input [0, 1, 2, 3, 4, 5, 6, 7] 0) = some (List.replicate 8 7) ∧
    envW1.crypto.des (((List.replicate 16 7 : List Nat).drop 7).take 7)
      (List.replicate 8 7) = some (List.replicate 8 14) ∧
    envW1.crypto.des ((List.replicate 16 7 : List Nat).take 7)
      (netr_cred_input envW1.server_challenge 0) = some (List.replicate 8 9) ∧
    envW1.crypto.des (((List.replicate 16 7 : List Nat).drop 7).take 7)
      (List.replicate 8 9) = some (List.replicate 8 16) ∧
    envW1.auth2_reply.call_ok = true ∧
    envW1.auth2_reply.status = 0 ∧
    (List.replicate 8 16 : List Nat).length = 8 ∧
    envW1.auth2_reply.server_credential.length = 8 ∧
    (0 : Nat) &&& NETR_FLG_VALID = 0 ∧
    (∃ out, netlogon_auth envW1 0 1 0 infoW1 = some out ∧
      ((List.replicate 8 16 : List Nat) = envW1.auth2_reply.server_credential →
        out.status = NT_STATUS_SUCCESS ∧
        out.info.flags &&& NETR_FLG_VALID ≠ 0 ∧
        out.seqnum_updated = true) ∧
      ((List.replicate 8 16 : List Nat) ≠ envW1.auth2_reply.server_credential →
        out.status = NT_STATUS_UNSUCCESSFUL ∧
        out.info.flags &&& NETR_FLG_VALID = 0 ∧
        out.seqnum_updated = false)) :=
  ⟨rfl, rfl, rfl, rfl, by decide, rfl, rfl, rfl, by decide, rfl, rfl, rfl, rfl,
    by decide, by decide, by decide, by decide, rfl, rfl, by decide, by decide,
    by decide,
    C1_authenticate_establish_iff envW1 0 1 0 infoW1 [0, 1, 2, 3, 4, 5, 6, 7]
      (List.replicate 16 9) (List.range 16) (List.replicate 16 5)
      (List.replicate 16 7) (List.replicate 8 7) (List.replicate 8 14)
      (List.replicate 8 9) (List.replicate 8 16) rfl rfl rfl rfl (by decide)
      rfl rfl rfl (by decide) rfl rfl rfl rfl (by decide) (by decide)
      (by decide) (by decide) rfl rfl (by decide) (by decide) (by decide)⟩

/-- C9 (amended): after an authentication attempt fails on a mismatched
server credential, the session state is not marked established and the
password buffer has been wiped, but the session key is **not** cleared
on this failure path — it still holds the freshly derived key (it is
only zeroed again at the start of the next attempt). -/
theorem C9_mismatch_key_not_wiped (E : NetlogonEnv) (base fuel arg : Nat)
    (info0 : NetrInfo) (cc pw nh dg key b1 c1 b2 c2 : List Nat)
    (hopen : E.open_status = 0)
    (hnb : E.getnetbiosname_ok = true)
    (hdom : E.getdomainname_ok = true)
    (hfq : E.getfqdomainname_ok = true)
    (hchal : find_challenge E.random fuel = some cc)
    (hr1 : E.reqchal_call_ok = true) (hr2 : E.reqchal_status = 0)
    (hcfg : E.crypto.config_password = some pw) (hpw : pw.getD 0 0 ≠ 0)
    (hntlm : E.crypto.ntlm pw = some nh) (hsess : E.crypto.md5_session_ok = true)
    (hmd5 : E.crypto.md5 (List.replicate 4 0 ++ cc.take 8 ++
      E.server_challenge.take 8) = some dg)
    (hhmac : E.crypto.hmac_md5 dg nh = some key)
    (hdes1 : E.crypto.des (key.take 7) (netr_cred_input cc 0) = some b1)
    (hdes2 : E.crypto.des ((key.drop 7).take 7) b1 = some c1)
    (hdes3 : E.crypto.des (key.take 7) (netr_cred_input E.server_challenge 0) = some b2)
    (hdes4 : E.crypto.des ((key.drop 7).take 7) b2 = some c2)
    (hcall : E.auth2_reply.call_ok = true) (hst : E.auth2_reply.status = 0)
    (harg : arg &&& NETR_FLG_VALID = 0)
    (hm : c2.take 8 ≠ E.auth2_reply.server_credential.take 8) :
    ∃ out, netlogon_auth E base fuel arg info0 = some out ∧
      out.status = NT_STATUS_UNSUCCESSFUL ∧
      out.info.flags &&& NETR_FLG_VALID = 0 ∧
      out.info.password = [] ∧
      out.info.session_key = key := by
  obtain ⟨-, hB⟩ := netlogon_auth_reduction E base fuel arg info0 cc pw nh dg
    key b1 c1 b2 c2 hopen hnb hdom hfq hchal hr1 hr2 hcfg hpw hntlm hsess
    hmd5 hhmac hdes1 hdes2 hdes3 hdes4 hcall hst
  refine ⟨_, hB hm, rfl, ?_, ?_, ?_⟩
  · simpa [postAuthInfo] using harg
  · simp [postAuthInfo]
  · simp [postAuthInfo]

/-- Counterexample to C9 as stated: in a concrete run where the server
returns a mismatched credential, the attempt fails and is not marked
established, yet the session key held in the session state equals the
freshly derived key and is **not** cleared (not zeroed, not emptied). -/
theorem C9_counterexample :
    netlogon_auth envW9 0 1 0 infoW1 =
      some ⟨NT_STATUS_UNSUCCESSFUL,
        postAuthInfo infoW1 0 [0, 1, 2, 3, 4, 5, 6, 7] (List.replicate 8 2)
          (List.replicate 16 7) (List.replicate 8 14) (List.replicate 8 16) 16384,
        false⟩ ∧
    (postAuthInfo infoW1 0 [0, 1, 2, 3, 4, 5, 6, 7] (List.replicate 8 2)
      (List.replicate 16 7) (List.replicate 8 14) (List.replicate 8 16)
      16384).flags &&& NETR_FLG_VALID = 0 ∧
    (postAuthInfo infoW1 0 [0, 1, 2, 3, 4, 5, 6, 7] (List.replicate 8 2)
      (List.replicate 16 7) (List.replicate 8 14) (List.replicate 8 16)
      16384).session_key = List.replicate 16 7 ∧
    (List.replicate 16 7 : List Nat) ≠ List.replicate 16 0 ∧
    (List.replicate 16 7 : List Nat) ≠ [] := by
  decide

/-- Witness for the amended C9 at the same concrete mismatch
environment. -/
theorem C9_mismatch_key_not_wiped_witness :
    envW9.open_status = 0 ∧
    find_challenge envW9.random 1 = some [0, 1, 2, 3, 4, 5, 6, 7] ∧
    envW9.crypto.config_password = some (List.replicate 16 9) ∧
    (List.replicate 16 9 : List Nat).getD 0 0 ≠ 0 ∧
    (0 : Nat) &&& NETR_FLG_VALID = 0 ∧
    (List.replicate 8 16 : List Nat).take 8 ≠
      envW9.auth2_reply.server_credential.take 8 ∧
    (∃ out, netlogon_auth envW9 0 1 0 infoW1 = some out ∧
      out.status = NT_STATUS_UNSUCCESSFUL ∧
      out.info.flags &&& NETR_FLG_VALID = 0 ∧
      out.info.password = [] ∧
      out.info.session_key = List.replicate 16 7) :=
  ⟨rfl, by decide, rfl, by decide, by decide, by decide,
    C9_mismatch_key_not_wiped envW9 0 1 0 infoW1 [0, 1, 2, 3, 4, 5, 6, 7]
      (List.replicate 16 9) (List.range 16) (List.replicate 16 5)
      (List.replicate 16 7) (List.replicate 8 7) (List.replicate 8 14)
      (List.replicate 8 9) (List.replicate 8 16) rfl rfl rfl rfl (by decide)
      rfl rfl rfl (by decide) rfl rfl rfl rfl (by decide) (by decide)
      (by decide) (by decide) rfl rfl (by decide) (by decide)⟩

/-- C8: in the password-change sub-sequence the newly derived trust
password is committed into the session state only after the returned
server authenticator passes chain validation; on every failure path
(authenticator-setup failure, derivation failure, transport error,
non-zero server status, chain-validation mismatch) the stored old
password is unchanged, and a chain-validation mismatch is not fatal —
the call still returns 0 and the established flag is untouched.  The
setup/validation oracles are assumed not to touch the password or
flags fields (per the spec they advance only the credential/timestamp
seed). -/
theorem C8_password_commit (O : ChainOracle)
    (des : List Nat → List Nat → Option (List Nat))
    (call_ok : Bool) (status : Nat) (info : NetrInfo)
    (hsetup_pw : ∀ i j, O.setup i = some j → j.password = i.password)
    (hval_pw : ∀ i, (O.validate i).2.password = i.password)
    (_hsetup_fl : ∀ i j, O.setup i = some j → j.flags = i.flags)
    (hval_fl : ∀ i, (O.validate i).2.flags = i.flags) :
    (O.setup info = none →
      netr_server_password_set O des call_ok status info = (-1, info)) ∧
    (∀ j, O.setup info = some j →
      (netr_gen_password des j.session_key j.password).1 = SMBAUTH_FAILURE →
      netr_server_password_set O des call_ok status info = (-1, j) ∧
      j.password = info.password) ∧
    (∀ j npw, O.setup info = some j →
      netr_gen_password des j.session_key j.password = (SMBAUTH_SUCCESS, some npw) →
      call_ok = false →
      netr_server_password_set O des call_ok status info = (-1, j) ∧
      j.password = info.password) ∧
    (∀ j npw, O.setup info = some j →
      netr_gen_password des j.session_key j.password = (SMBAUTH_SUCCESS, some npw) →
      call_ok = true → status ≠ 0 →
      netr_server_password_set O des call_ok status info = (-1, j) ∧
      j.password = info.password) ∧
    (∀ j npw vst vinfo, O.setup info = some j →
      netr_gen_password des j.session_key j.password = (SMBAUTH_SUCCESS, some npw) →
      call_ok = true → status = 0 → O.validate j = (vst, vinfo) → vst ≠ 0 →
      netr_server_password_set O des call_ok status info = (0, vinfo) ∧
      vinfo.password = info.password ∧ vinfo.flags = info.flags) ∧
    (∀ j npw vinfo, O.setup info = some j →
      netr_gen_password des j.session_key j.password = (SMBAUTH_SUCCESS, some npw) →
      call_ok = true → status = 0 → O.validate j = (0, vinfo) →
      netr_server_password_set O des call_ok status info =
        (0, { vinfo with password := npw })) := by
  refine ⟨fun hn => ?_, fun j hj hrc => ?_, fun j npw hj hgp hc => ?_,
    fun j npw hj hgp hc hs => ?_, fun j npw vst vinfo hj hgp hc hs hv hvst => ?_,
    fun j npw vinfo hj hgp hc hs hv => ?_⟩
  · simp [netr_server_password_set, hn]
  · rcases hgp : netr_gen_password des j.session_key j.password with ⟨rc, npw⟩
    rw [hgp] at hrc
    refine ⟨?_, hsetup_pw info j hj⟩
    simp [netr_server_password_set, hj, hgp, hrc]
  · refine ⟨?_, hsetup_pw info j hj⟩
    simp [netr_server_password_set, hj, hgp, hc, SMBAUTH_SUCCESS, SMBAUTH_FAILURE]
  · refine ⟨?_, hsetup_pw info j hj⟩
    simp [netr_server_password_set, hj, hgp, hc, hs, SMBAUTH_SUCCESS, SMBAUTH_FAILURE]
  · refine ⟨?_, ?_, ?_⟩
    · simp [netr_server_password_set, hj, hgp, hc, hs, hv, hvst,
        SMBAUTH_SUCCESS, SMBAUTH_FAILURE]
    · have := hval_pw j
      rw [hv] at this
      rw [this, hsetup_pw info j hj]
    · have := hval_fl j
      rw [hv] at this
      rw [this, _hsetup_fl info j hj]
  · simp [netr_server_password_set, hj, hgp, hc, hs, hv,
      SMBAUTH_SUCCESS, SMBAUTH_FAILURE]

/-- Witness for C8: concrete oracles in which setup and validation
succeed without touching the state, so the derived password is
committed. -/
theorem C8_password_commit_witness :
    (∀ i j, oracleW8.setup i = some j → j.password = i.password) ∧
    (∀ i, (oracleW8.validate i).2.password = i.password) ∧
    (∀ i j, oracleW8.setup i = some j → j.flags = i.flags) ∧
    (∀ i, (oracleW8.validate i).2.flags = i.flags) ∧
    ((oracleW8.setup infoW8 = none →
      netr_server_password_set oracleW8 desW8 true 0 infoW8 = (-1, infoW8)) ∧
    (∀ j, oracleW8.setup infoW8 = some j →
      (netr_gen_password desW8 j.session_key j.password).1 = SMBAUTH_FAILURE →
      netr_server_password_set oracleW8 desW8 true 0 infoW8 = (-1, j) ∧
      j.password = infoW8.password) ∧
    (∀ j npw, oracleW8.setup infoW8 = some j →
      netr_gen_password desW8 j.session_key j.password = (SMBAUTH_SUCCESS, some npw) →
      (true : Bool) = false →
      netr_server_password_set oracleW8 desW8 true 0 infoW8 = (-1, j) ∧
      j.password = infoW8.password) ∧
    (∀ j npw, oracleW8.setup infoW8 = some j →
      netr_gen_password desW8 j.session_key j.password = (SMBAUTH_SUCCESS, some npw) →
      (true : Bool) = true → (0 : Nat) ≠ 0 →
      netr_server_password_set oracleW8 desW8 true 0 infoW8 = (-1, j) ∧
      j.password = infoW8.password) ∧
    (∀ j npw vst vinfo, oracleW8.setup infoW8 = some j →
      netr_gen_password desW8 j.session_key j.password = (SMBAUTH_SUCCESS, some npw) →
      (true : Bool) = true → (0 : Nat) = 0 → oracleW8.validate j = (vst, vinfo) → vst ≠ 0 →
      netr_server_password_set oracleW8 desW8 true 0 infoW8 = (0, vinfo) ∧
      vinfo.password = infoW8.password ∧ vinfo.flags = infoW8.flags) ∧
    (∀ j npw vinfo, oracleW8.setup infoW8 = some j →
      netr_gen_password desW8 j.session_key j.password = (SMBAUTH_SUCCESS, some npw) →
      (true : Bool) = true → (0 : Nat) = 0 → oracleW8.validate j = (0, vinfo) →
      netr_server_password_set oracleW8 desW8 true 0 infoW8 =
        (0, { vinfo with password := npw }))) := by
  refine ⟨fun i j h => ?_, fun i => rfl, fun i j h => ?_, fun i => rfl, ?_⟩
  · injection h with h'
    rw [h']
  · injection h with h'
    rw [h']
  · exact C8_password_commit oracleW8 desW8 true 0 infoW8
      (fun i j h => by injection h with h'; rw [h']) (fun i => rfl)
      (fun i j h => by injection h with h'; rw [h']) (fun i => rfl)

end NetrAuth
